import Mathlib

/-!
Shallow embedding of the ClipSense MCP client (src/client.ts, the API key
manager, and the server bootstrap) together with proofs of the spec claims.

Conventions of the embedding:
* `statSync` results, HTTP responses and network failures are passed in as
  explicit environment values (`StatOutcome`, `NetEnv`), so every function is
  pure and executable.
* thrown `Error` values become constructors of `ClientError`, each carrying the
  structured data the corresponding message template embeds (path, sizes,
  job id, status-check URL, server message); the surrounding English prose of
  the messages is presentation only.
* the side effects the pipeline performs (HTTP requests, the 5-second sleeps
  of the poll loop) are recorded in an `Event` trace returned next to the
  result; console progress logging is a diagnostic side channel and is not
  traced.
* JavaScript numbers holding byte sizes, counters and token counts are modelled
  as `Nat`; the `cost_total` dollar amount is modelled as `Rat` (exact values
  standing for the doubles the code manipulates).
-/

namespace ClipSense

/-- MAX_FILE_SIZE from client.ts line 12: 500 * 1024 * 1024 bytes (500MB). -/
def MAX_FILE_SIZE : Nat := 500 * 1024 * 1024

/-- ASCII lowering of a string, character by character: the model of
JavaScript `toLowerCase()` on the ASCII paths and extensions in play. -/
def toLowerStr (s : String) : String := ⟨s.data.map Char.toLower⟩

/-- The extension computed by `videoPath.toLowerCase().split(".").pop() || ""`
(client.ts line 86): the segment of the lowercased path after its last dot,
the whole lowercased path when it has no dot, and "" for the empty path. -/
def extOf (path : String) : String :=
  ⟨((toLowerStr path).data.reverse.takeWhile (fun c => c != '.')).reverse⟩

/-- supportedFormats from client.ts line 87. -/
def supportedFormats : List String :=
  ["mp4", "mov", "webm", "avi", "mkv", "flv", "mpeg", "mpg", "3gp", "wmv"]

/-- Node `path.basename`: the segment after the last slash (POSIX form,
no trailing-slash trimming is needed for the paths in play). -/
def basename (p : String) : String :=
  ⟨(p.data.reverse.takeWhile (fun c => c != '/')).reverse⟩

/-- The content-type table of `getContentType` (client.ts lines 319-330). -/
def contentTypes : List (String × String) :=
  [("mp4", "video/mp4"), ("mov", "video/quicktime"), ("webm", "video/webm"),
   ("avi", "video/x-msvideo"), ("mkv", "video/x-matroska"), ("flv", "video/x-flv"),
   ("mpeg", "video/mpeg"), ("mpg", "video/mpeg"), ("3gp", "video/3gpp"),
   ("wmv", "video/x-ms-wmv")]

/-- getContentType (client.ts lines 317-332): look the lowercased extension up
in the table, defaulting to "video/mp4". -/
def getContentType (filepath : String) : String :=
  match contentTypes.lookup (extOf filepath) with
  | some t => t
  | none => "video/mp4"

/-- The `a || b` JavaScript idiom on an optional string: `a` when it is
present and non-empty (truthy), `b` otherwise. -/
def orElseStr (a : Option String) (b : String) : String :=
  match a with
  | some s => if s = "" then b else s
  | none => b

/-- Result of `statSync(videoPath)`: either the stats object (only the fields
the client reads) or a thrown error with its `code` and `message`. -/
inductive StatOutcome where
  | ok (isFile : Bool) (size : Nat)
  | err (code : String) (message : String)
deriving DecidableEq, Repr

/-- An axios failure: either an HTTP error response (status plus the optional
`data.detail` / `data.error` fields and the generic `message`), or a
transport-level error carrying only an error `code` and `message`. -/
inductive AxiosErr where
  | http (status : Nat) (detail : Option String) (error : Option String) (message : String)
  | code (code : String) (message : String)
deriving DecidableEq, Repr

/-- Body of `GET /analyze/jobs/{id}/status`. -/
structure StatusResp where
  status : String
  error_message : Option String
deriving DecidableEq, Repr

/-- The `result` object of a job detail payload. -/
structure JobResult where
  response : Option String
deriving DecidableEq, Repr

/-- Body of `GET /analyze/jobs/{id}`: the fields `formatAnalysis` reads.
Absent JSON fields are `none`. -/
structure Job where
  result : Option JobResult
  frames_extracted : Option Nat
  tokens_used : Option Nat
  cost_total : Option Rat
deriving DecidableEq, Repr

/-- Body of `POST /upload/presign`. -/
structure PresignResp where
  upload_url : String
  video_key : String
deriving DecidableEq, Repr

/-- Body of `POST /analyze/start`. -/
structure StartResp where
  id : String
deriving DecidableEq, Repr

/-- The network environment a run of the pipeline observes: one response (or
failure) per endpoint, the status endpoint indexed by poll attempt. -/
structure NetEnv where
  presign : Except AxiosErr PresignResp
  put : Except AxiosErr Unit
  start : Except AxiosErr StartResp
  statusAt : Nat → Except AxiosErr StatusResp
  detail : Except AxiosErr Job

/-- Every distinct `throw new Error(...)` of client.ts, as structured data:
the constructor arguments are the values the message template interpolates. -/
inductive ClientError where
  | fileNotFound (path : String)
  | accessFailed (message : String) (path : String)
  | notAFile (path : String)
  | emptyFile (path : String)
  | tooLarge (actualSize : Nat) (maxSize : Nat) (path : String)
  | unsupportedFormat (ext : String) (formats : List String) (path : String)
  | authFailed (message : String)
  | rateLimited (message : String)
  | payloadTooLarge (message : String)
  | serverError (status : Nat) (message : String)
  | apiError (status : Nat) (message : String)
  | cannotConnect (message : String)
  | requestTimeout (message : String)
  | analysisFailed (errorMessage : String) (jobId : String)
  | lostConnection (jobId : String) (checkUrl : String) (message : String)
  | pollTimeout (jobId : String) (checkUrl : String)
  | noResult
  | rethrownNet (code : String) (message : String)
deriving DecidableEq, Repr

/-- The status-check URL interpolated into the poll-loop diagnoses:
`https://clipsense.app/results/jobId`. -/
def resultsUrl (jobId : String) : String := "https://clipsense.app/results/" ++ jobId

/-- The extension check of analyzeVideo (client.ts lines 85-96). -/
def validateExtension (videoPath : String) : Option ClientError :=
  let ext := extOf videoPath
  if ext ∈ supportedFormats then none
  else some (.unsupportedFormat ext supportedFormats videoPath)

/-- The stat-based validations of analyzeVideo (client.ts lines 56-96), in
source order: regular file, non-empty, within MAX_FILE_SIZE, then extension. -/
def validateStats (videoPath : String) (isFile : Bool) (size : Nat) : Option ClientError :=
  if !isFile then some (.notAFile videoPath)
  else if size = 0 then some (.emptyFile videoPath)
  else if size > MAX_FILE_SIZE then some (.tooLarge size MAX_FILE_SIZE videoPath)
  else validateExtension videoPath

/-- The whole pre-network validation of analyzeVideo (client.ts lines 36-96),
including the statSync error handling: ENOENT becomes the not-found rejection,
any other stat error the access-failure rejection. -/
def validate (videoPath : String) (stat : StatOutcome) : Option ClientError :=
  match stat with
  | .err code message =>
      if code = "ENOENT" then some (.fileNotFound videoPath)
      else some (.accessFailed message videoPath)
  | .ok isFile size => validateStats videoPath isFile size

/-- The observable effects of a pipeline run, in order: the four kinds of HTTP
request the client issues and the 5-second suspension between status polls. -/
inductive Event where
  | presignReq (filename : String) (contentType : String) (fileSize : Nat)
  | putReq (url : String) (contentType : String)
  | startReq (videoKey : String) (filename : String) (question : String) (analysisType : String)
  | statusReq (jobId : String)
  | detailReq (jobId : String)
  | sleep (ms : Nat)
deriving DecidableEq, Repr

/-- Poll-loop errors: either a `ClientError` that pollJobStatus itself
constructs (job failed, lost connection, timeout) or a raw axios error its
catch block re-throws into analyzeVideo's handler. -/
inductive PollErr where
  | client (e : ClientError)
  | axios (e : AxiosErr)
deriving DecidableEq, Repr

/-- The catch block of pollJobStatus (client.ts lines 265-278): an error whose
`code` is ECONNREFUSED, ENOTFOUND or ETIMEDOUT becomes the lost-connection
diagnosis carrying the job id and the status-check URL; every other error is
re-thrown unchanged. -/
def pollCatch (e : AxiosErr) (jobId : String) : PollErr :=
  match e with
  | .code c m =>
      if c = "ECONNREFUSED" ∨ c = "ENOTFOUND" ∨ c = "ETIMEDOUT" then
        .client (.lostConnection jobId (resultsUrl jobId) m)
      else .axios (.code c m)
  | .http s d er m => .axios (.http s d er m)

/-- pollJobStatus (client.ts lines 229-289). `fuel` is `maxAttempts - attempts`
(initially 120) and `i` the current attempt index; one iteration fetches the
status for attempt `i`, returns the detail fetch on "completed", throws on
"failed", and otherwise sleeps 5000 ms and continues. Exhausted fuel is the
`while` guard failing, which throws the timeout diagnosis. Errors of the
status fetch and of the detail fetch both pass through the loop's catch
(`pollCatch`); the "failed" throw also passes through it but, carrying no
`code`, is always re-thrown unchanged, so it is returned directly. The
progress log of lines 256-260 is console-only and is not traced. -/
def pollJobStatus (statusAt : Nat → Except AxiosErr StatusResp)
    (detail : Except AxiosErr Job) (jobId : String) :
    Nat → Nat → Except PollErr Job × List Event
  | 0, _ => (.error (.client (.pollTimeout jobId (resultsUrl jobId))), [])
  | fuel + 1, i =>
      match statusAt i with
      | .error e => (.error (pollCatch e jobId), [.statusReq jobId])
      | .ok resp =>
          if resp.status = "completed" then
            match detail with
            | .error e => (.error (pollCatch e jobId), [.statusReq jobId, .detailReq jobId])
            | .ok job => (.ok job, [.statusReq jobId, .detailReq jobId])
          else if resp.status = "failed" then
            (.error (.client (.analysisFailed (orElseStr resp.error_message "Unknown error") jobId)),
             [.statusReq jobId])
          else
            let rest := pollJobStatus statusAt detail jobId fuel (i + 1)
            (rest.1, .statusReq jobId :: .sleep 5000 :: rest.2)

/-- Digits of `n` left-padded with zeros to width 4 (the fractional part of a
`toFixed(4)` rendering). -/
def pad4 (n : Nat) : String :=
  let s := Nat.repr n
  ⟨List.replicate (4 - s.length) '0' ++ s.data⟩

/-- Model of JavaScript `Number.prototype.toFixed(4)` for the non-negative
exact decimal values in play: round half up to four decimals and print with
exactly four fractional digits. The rounded integer is
`⌊q * 10000 + 1/2⌋ = ⌊(20000 * q.num + q.den) / (2 * q.den)⌋`, computed on the
numerator and denominator directly. -/
def toFixed4 (q : Rat) : String :=
  let n := (Int.fdiv (20000 * q.num + Int.ofNat q.den) (Int.ofNat (2 * q.den))).toNat
  Nat.repr (n / 10000) ++ "." ++ pad4 (n % 10000)

/-- Trim of ASCII whitespace from both ends, the model of JavaScript
`String.prototype.trim()` on the rendered template. -/
def jsTrim (s : String) : String :=
  ⟨((s.data.dropWhile Char.isWhitespace).reverse.dropWhile Char.isWhitespace).reverse⟩

/-- The template literal of formatAnalysis (client.ts lines 301-311), with the
three `||` defaults of the interpolations made explicit: a zero or absent
frame count renders as "N/A", zero or absent tokens as 0, zero or absent cost
as 0 before the `toFixed(4)`. -/
def renderReport (resp : String) (job : Job) : String :=
  let frames := match job.frames_extracted with
    | some n => if n = 0 then "N/A" else Nat.repr n
    | none => "N/A"
  let tokens := match job.tokens_used with
    | some n => if n = 0 then Nat.repr 0 else Nat.repr n
    | none => Nat.repr 0
  let cost := toFixed4 (match job.cost_total with
    | some q => if q = 0 then 0 else q
    | none => 0)
  jsTrim ("\n## Mobile Bug Analysis\n\n" ++ resp ++
    "\n\n---\n**Analysis Details:**\n- Frames analyzed: " ++ frames ++
    "\n- Tokens used: " ++ tokens ++ "\n- Cost: $" ++ cost ++ "\n")

/-- formatAnalysis (client.ts lines 294-312): `!result?.response` throws the
no-result error — that guard is JavaScript falsiness, so an absent `result`,
an absent `response` and an empty-string `response` all throw; otherwise the
template is rendered. -/
def formatAnalysis (job : Job) : Except ClientError String :=
  match job.result with
  | none => .error .noResult
  | some r =>
      match r.response with
      | none => .error .noResult
      | some resp =>
          if resp = "" then .error .noResult
          else .ok (renderReport resp job)

/-- The catch block of analyzeVideo (client.ts lines 139-223): HTTP errors are
classified by status (the displayed message is
`data?.detail || data?.error || error.message`), transport errors by code;
anything else — including the errors pollJobStatus and formatAnalysis already
constructed — is re-thrown unchanged. -/
def handleAxiosErr (e : AxiosErr) : ClientError :=
  match e with
  | .http status detail error message =>
      let m := orElseStr detail (orElseStr error message)
      if status = 401 ∨ status = 403 then .authFailed m
      else if status = 429 then .rateLimited m
      else if status = 413 then .payloadTooLarge m
      else if status ≥ 500 then .serverError status m
      else .apiError status m
  | .code c message =>
      if c = "ECONNREFUSED" ∨ c = "ENOTFOUND" then .cannotConnect message
      else if c = "ETIMEDOUT" ∨ c = "ECONNABORTED" then .requestTimeout message
      else .rethrownNet c message

/-- What analyzeVideo resolves to on success. -/
structure AnalyzeResult where
  jobId : String
  analysis : String
deriving DecidableEq, Repr

/-- The try block of analyzeVideo (client.ts lines 98-138) plus its catch:
presign, PUT, start, poll, format, in sequence, each aborting the rest on
failure; every axios error is mapped by `handleAxiosErr`, and the
`ClientError` values thrown inside the try (poll diagnoses, the formatter's
no-result error) pass through the catch unchanged. -/
def runPipeline (net : NetEnv) (videoPath question : String) (size : Nat) :
    Except ClientError AnalyzeResult × List Event :=
  let filename := basename videoPath
  let ctype := getContentType videoPath
  let ev1 := Event.presignReq filename ctype size
  match net.presign with
  | .error e => (.error (handleAxiosErr e), [ev1])
  | .ok pres =>
      let ev2 := Event.putReq pres.upload_url ctype
      match net.put with
      | .error e => (.error (handleAxiosErr e), [ev1, ev2])
      | .ok _ =>
          let ev3 := Event.startReq pres.video_key filename question "mobile_bug"
          match net.start with
          | .error e => (.error (handleAxiosErr e), [ev1, ev2, ev3])
          | .ok jd =>
              let pr := pollJobStatus net.statusAt net.detail jd.id 120 0
              let trace := ev1 :: ev2 :: ev3 :: pr.2
              match pr.1 with
              | .error (.client ce) => (.error ce, trace)
              | .error (.axios ae) => (.error (handleAxiosErr ae), trace)
              | .ok job =>
                  match formatAnalysis job with
                  | .error ce => (.error ce, trace)
                  | .ok text => (.ok ⟨jd.id, text⟩, trace)

/-- analyzeVideo (client.ts lines 32-224): the pre-network validations reject
with an empty trace — no HTTP request is issued — and only an approved file
enters the network pipeline. -/
def analyzeVideo (stat : StatOutcome) (net : NetEnv) (videoPath question : String) :
    Except ClientError AnalyzeResult × List Event :=
  match stat with
  | .err code message =>
      if code = "ENOENT" then (.error (.fileNotFound videoPath), [])
      else (.error (.accessFailed message videoPath), [])
  | .ok isFile size =>
      match validateStats videoPath isFile size with
      | some e => (.error e, [])
      | none => runPipeline net videoPath question size

/-- The on-disk config file of the API key manager, as `getApiKey` can observe
it: missing, unreadable or unparsable (any read error is swallowed), or parsed
JSON whose `apiKey` field may itself be absent. -/
inductive ConfigFile where
  | absent
  | malformed
  | wellFormed (apiKey : Option String)
deriving DecidableEq, Repr

/-- The config-file half of getApiKey (auth manager lines 26-37): a parsed
`config.apiKey` is returned only when truthy — present and non-empty; every
other shape of the file yields null. -/
def configLookup (cfg : ConfigFile) : Option String :=
  match cfg with
  | .wellFormed (some k) => if k = "" then none else some k
  | _ => none

/-- getApiKey (auth manager lines 18-38): the CLIPSENSE_API_KEY environment
variable wins when truthy (set and non-empty), else the config file is
consulted. -/
def getApiKey (env : Option String) (cfg : ConfigFile) : Option String :=
  match env with
  | some e => if e = "" then configLookup cfg else some e
  | none => configLookup cfg

/-- saveApiKey (auth manager lines 43-52): writes `{apiKey}` to the config
file, replacing whatever was there (the directory creation has no observable
effect on later reads). JSON.stringify/parse round-trips any string, so the
stored value is the key itself. -/
def saveApiKey (k : String) (_cfg : ConfigFile) : ConfigFile :=
  .wellFormed (some k)

/-- Number of occurrences of a pattern in a string: the count of positions of
`s` at which `pat` starts (for the patterns in play, identical to the
non-overlapping count). -/
def occurrences (s pat : String) : Nat :=
  (List.range s.data.length).countP
    (fun i => decide ((s.data.drop i).take pat.data.length = pat.data))

/-- Recognizer for status-poll requests in a trace. -/
def isStatusReq : Event → Bool
  | .statusReq _ => true
  | _ => false

/-- Recognizer for job-detail requests in a trace. -/
def isDetailReq : Event → Bool
  | .detailReq _ => true
  | _ => false

/-- Recognizer for presign requests in a trace. -/
def isPresignReq : Event → Bool
  | .presignReq .. => true
  | _ => false

/-- Recognizer for upload PUT requests in a trace. -/
def isPutReq : Event → Bool
  | .putReq .. => true
  | _ => false

/-- The job-detail payload served by the mock service of the C4 scenario. -/
def mockJob : Job :=
  { result := some ⟨some "The button handler throws a null pointer exception"⟩
    frames_extracted := some 42
    tokens_used := some 1234
    cost_total := some (mkRat 123 10000) }

/-- The mock service of the C4 scenario: presign succeeds, the PUT is
accepted, the job id is job_1, the first two status polls report queued and
processing, the third reports completed, and the detail fetch serves
`mockJob`. -/
def mockNet : NetEnv :=
  { presign := .ok ⟨"https://r2.example.com/upload/abc", "videos/demo.mp4"⟩
    put := .ok ()
    start := .ok ⟨"job_1"⟩
    statusAt := fun i =>
      if i = 0 then .ok ⟨"queued", none⟩
      else if i = 1 then .ok ⟨"processing", none⟩
      else .ok ⟨"completed", none⟩
    detail := .ok mockJob }

/-- The full scenario run of claim C4: an existing 1 MiB regular file at
/tmp/demo.mp4, analyzed against `mockNet`. -/
def mockRun : Except ClientError AnalyzeResult × List Event :=
  analyzeVideo (.ok true 1048576) mockNet "/tmp/demo.mp4" "why does it crash?"

/-- A completed job whose `result.response` is present but the empty string:
the input separating JavaScript falsiness from absence in `formatAnalysis`. -/
def emptyRespJob : Job :=
  { result := some ⟨some ""⟩
    frames_extracted := some 7
    tokens_used := some 100
    cost_total := some (mkRat 123 10000) }

/-- The formatter round-trip job of claim C6. -/
def sampleJob : Job :=
  { result := some ⟨some "X"⟩
    frames_extracted := some 7
    tokens_used := some 100
    cost_total := some (mkRat 123 10000) }

/-- The job of claim C9: response present, frame count, tokens and cost all
zero. -/
def zeroFramesJob : Job :=
  { result := some ⟨some "R"⟩
    frames_extracted := some 0
    tokens_used := some 0
    cost_total := some (mkRat 0 1) }

/-! Helper lemmas shared by the claim theorems. -/

theorem takeWhile_all_append (l r : List Char) (h : ∀ c ∈ l, c ≠ '.') :
    (l ++ '.' :: r).takeWhile (fun c => c != '.') = l := by
  induction l with
  | nil => simp
  | cons a as ih =>
      have ha : a ≠ '.' := h a (List.mem_cons_self a as)
      simp only [List.cons_append, List.takeWhile_cons]
      rw [if_pos (by simpa using ha)]
      rw [ih (fun c hc => h c (List.mem_cons_of_mem a hc))]

theorem extOf_append_ext (stem ext : String)
    (h : ∀ c ∈ (toLowerStr ext).data, c ≠ '.') :
    extOf (stem ++ "." ++ ext) = toLowerStr ext := by
  have hdata : (toLowerStr (stem ++ "." ++ ext)).data
      = (toLowerStr stem).data ++ '.' :: (toLowerStr ext).data := by
    simp [toLowerStr, String.data_append]
  unfold extOf
  rw [hdata]
  have hrev : ((toLowerStr stem).data ++ '.' :: (toLowerStr ext).data).reverse
      = (toLowerStr ext).data.reverse ++ '.' :: (toLowerStr stem).data.reverse := by
    simp
  rw [hrev, takeWhile_all_append _ _ (fun c hc => h c (List.mem_reverse.mp hc))]
  simp [toLowerStr]

theorem countP_replicate_join (p : Event → Bool) (k : Nat) (l : List Event) :
    ((List.replicate k l).flatten).countP p = k * l.countP p := by
  induction k with
  | zero => simp
  | succ n ih =>
      simp [List.replicate_succ, List.countP_append, ih, Nat.succ_mul, Nat.add_comm]

/-- Claim C1: for an existing regular file, the size validation rejects
exactly the sizes 0 and those above 524288000 bytes, with the empty-file
rejection at 0 and the too-large rejection — carrying the actual and the
maximum size — above the bound, and a supported-extension file of exactly
524288000 bytes passes validation. -/
theorem size_validation (path : String) (s : Nat) :
    ((validateStats path true s = some (.emptyFile path) ∨
      validateStats path true s = some (.tooLarge s 524288000 path)) ↔
        (s = 0 ∨ s > 524288000))
    ∧ (s = 0 → validateStats path true s = some (.emptyFile path))
    ∧ (s > 524288000 → validateStats path true s = some (.tooLarge s 524288000 path))
    ∧ (extOf path ∈ supportedFormats →
        (validateStats path true s = none ↔ (s ≠ 0 ∧ s ≤ 524288000))) := by
  have hmax : MAX_FILE_SIZE = 524288000 := by norm_num [MAX_FILE_SIZE]
  unfold validateStats validateExtension
  rw [hmax]
  by_cases h0 : s = 0
  · subst h0
    simp
  · by_cases hL : s > 524288000
    · simp [h0, hL]
    · simp only [Bool.not_true, Bool.false_eq_true, if_false, if_neg h0, if_neg hL]
      constructor
      · constructor
        · intro hmem
          rcases hmem with hmem | hmem <;> split at hmem <;> simp_all
        · intro hs
          omega
      · refine ⟨fun h => absurd h h0, fun h => absurd h (by omega), ?_⟩
        intro hext
        rw [if_pos hext]
        simp [h0]
        omega

/-- Witness for C1 at concrete sizes: the exact boundary 524288000 is
accepted, 0 is rejected as empty, 524288001 as too large with both sizes. -/
theorem size_validation_witness :
    validateStats "clip.mp4" true 524288000 = none ∧
    validateStats "clip.mp4" true 0 = some (.emptyFile "clip.mp4") ∧
    validateStats "clip.mp4" true 524288001 =
      some (.tooLarge 524288001 524288000 "clip.mp4") := by
  refine ⟨?_, ?_, ?_⟩
  · exact ((size_validation "clip.mp4" 524288000).2.2.2 (by decide)).mpr (by decide)
  · exact (size_validation "clip.mp4" 0).2.1 rfl
  · exact (size_validation "clip.mp4" 524288001).2.2.1 (by decide)

/-- Claim C7: the extension check passes exactly the paths whose lowercased
last dot-segment is one of the 10 supported formats; any other extension is
rejected with the unsupported-format reason carrying the allow-list; the check
is reached for every well-sized regular file regardless of content; and a path
stem with any letter-case variant of a supported extension appended passes. -/
theorem extension_validation :
    (∀ p, validateExtension p = none ↔ extOf p ∈ supportedFormats)
    ∧ (∀ p, extOf p ∉ supportedFormats →
        validateExtension p = some (.unsupportedFormat (extOf p) supportedFormats p))
    ∧ (∀ p s, 0 < s → s ≤ 524288000 → validateStats p true s = validateExtension p)
    ∧ (∀ stem ext, toLowerStr ext ∈ supportedFormats →
        validateExtension (stem ++ "." ++ ext) = none) := by
  have hmax : MAX_FILE_SIZE = 524288000 := by norm_num [MAX_FILE_SIZE]
  refine ⟨?_, ?_, ?_, ?_⟩
  · intro p
    by_cases h : extOf p ∈ supportedFormats <;> simp [validateExtension, h]
  · intro p hp
    simp [validateExtension, hp]
  · intro p s hpos hle
    unfold validateStats
    rw [hmax]
    simp only [Bool.not_true, Bool.false_eq_true, if_false]
    rw [if_neg (by omega), if_neg (by omega)]
  · intro stem ext h
    have hd : ∀ c ∈ (toLowerStr ext).data, c ≠ '.' := by
      have hmem := h
      simp only [supportedFormats, List.mem_cons, List.not_mem_nil, or_false] at hmem
      rcases hmem with h1 | h1 | h1 | h1 | h1 | h1 | h1 | h1 | h1 | h1 <;>
        (rw [h1]; decide)
    simp [validateExtension, extOf_append_ext stem ext hd, h]

/-- Witness for C7 at concrete paths: an upper-case variant of a supported
extension passes, and an unlisted extension is rejected with the allow-list. -/
theorem extension_validation_witness :
    validateExtension ("/tmp/clip" ++ "." ++ "MOV") = none ∧
    validateExtension "/tmp/clip.txt" =
      some (.unsupportedFormat "txt" supportedFormats "/tmp/clip.txt") := by
  refine ⟨?_, ?_⟩
  · exact extension_validation.2.2.2 "/tmp/clip" "MOV" (by decide)
  · have := extension_validation.2.1 "/tmp/clip.txt" (by decide)
    simpa using this

/-- Claim C8: a path whose stat fails with ENOENT is rejected as not found
before any network activity — the trace of the whole pipeline run is empty, so
no presign, PUT, start, status or detail request is ever issued. -/
theorem missing_file_no_network (path question msg : String) (net : NetEnv) :
    analyzeVideo (.err "ENOENT" msg) net path question =
      (.error (.fileNotFound path), []) := by
  simp [analyzeVideo]

/-- Counterexample to claim C10 as stated: saving the empty key and reading it
back with the environment variable unset yields null, not the empty key,
because the config lookup treats a falsy `apiKey` as absent. -/
theorem apikey_roundtrip_cex :
    getApiKey none (saveApiKey "" ConfigFile.absent) = none ∧
    getApiKey none (saveApiKey "" ConfigFile.absent) ≠ some "" := by
  decide

/-- Claim C10 as amended: for every non-empty key, a save followed by a read
with the environment variable unset returns the key, and a set, non-empty
environment variable takes precedence over any config state. -/
theorem apikey_roundtrip :
    (∀ (k : String) (cfg : ConfigFile), k ≠ "" →
      getApiKey none (saveApiKey k cfg) = some k)
    ∧ (∀ (e : String) (cfg : ConfigFile), e ≠ "" →
      getApiKey (some e) cfg = some e) := by
  constructor
  · intro k cfg hk
    simp [getApiKey, saveApiKey, configLookup, hk]
  · intro e cfg he
    simp [getApiKey, he]

/-- Witness for C10 at concrete keys. -/
theorem apikey_roundtrip_witness :
    getApiKey none (saveApiKey "sk-test-123" ConfigFile.absent) = some "sk-test-123" ∧
    getApiKey (some "env-key") (ConfigFile.wellFormed (some "file-key")) = some "env-key" :=
  ⟨apikey_roundtrip.1 "sk-test-123" ConfigFile.absent (by decide),
   apikey_roundtrip.2 "env-key" (ConfigFile.wellFormed (some "file-key")) (by decide)⟩

/-- A status fetch that observes neither "completed" nor "failed". -/
def NonTerminal (statusAt : Nat → Except AxiosErr StatusResp) (i : Nat) : Prop :=
  ∃ r, statusAt i = .ok r ∧ r.status ≠ "completed" ∧ r.status ≠ "failed"

theorem pollJobStatus_skip (statusAt : Nat → Except AxiosErr StatusResp)
    (detail : Except AxiosErr Job) (jobId : String) :
    ∀ (k fuel i : Nat), k ≤ fuel →
      (∀ j, j < k → NonTerminal statusAt (i + j)) →
      pollJobStatus statusAt detail jobId fuel i =
        ((pollJobStatus statusAt detail jobId (fuel - k) (i + k)).1,
         (List.replicate k [Event.statusReq jobId, Event.sleep 5000]).flatten
           ++ (pollJobStatus statusAt detail jobId (fuel - k) (i + k)).2) := by
  intro k
  induction k with
  | zero => intro fuel i _ _; simp
  | succ n ih =>
      intro fuel i hk h
      match fuel, hk with
      | f + 1, hk =>
          obtain ⟨r, hr, hc, hf⟩ := h 0 (Nat.succ_pos n)
          have hr0 : statusAt i = .ok r := by simpa using hr
          have step := ih f (i + 1) (Nat.le_of_succ_le_succ hk) (fun j hj => by
            have := h (j + 1) (Nat.succ_lt_succ hj)
            have heq : i + (j + 1) = i + 1 + j := by omega
            rwa [heq] at this)
          have e1 : f + 1 - (n + 1) = f - n := by omega
          have e2 : i + (n + 1) = i + 1 + n := by omega
          rw [e1, e2]
          simp only [pollJobStatus, hr0, if_neg hc, if_neg hf, step, List.replicate_succ,
            List.flatten_cons, List.cons_append, List.nil_append, List.append_assoc]

/-- Claim C2: when no poll ever observes a terminal status, the loop performs
exactly 120 status checks, one 5-second suspension after each, and then fails
with the timeout diagnosis carrying the job id and the status-check URL — it
does not loop further and does not crash. -/
theorem poll_timeout_budget (statusAt : Nat → Except AxiosErr StatusResp)
    (detail : Except AxiosErr Job) (jobId : String)
    (h : ∀ i, i < 120 → NonTerminal statusAt i) :
    pollJobStatus statusAt detail jobId 120 0 =
      (.error (.client (.pollTimeout jobId ("https://clipsense.app/results/" ++ jobId))),
       (List.replicate 120 [Event.statusReq jobId, Event.sleep 5000]).flatten)
    ∧ (pollJobStatus statusAt detail jobId 120 0).2.countP isStatusReq = 120
    ∧ (pollJobStatus statusAt detail jobId 120 0).2.countP isDetailReq = 0 := by
  have hs := pollJobStatus_skip statusAt detail jobId 120 120 0 le_rfl
    (fun j hj => by simpa using h j hj)
  have hz : pollJobStatus statusAt detail jobId (120 - 120) (0 + 120) =
      (.error (.client (.pollTimeout jobId (resultsUrl jobId))), []) := rfl
  rw [hz] at hs
  simp only [List.append_nil] at hs
  refine ⟨?_, ?_, ?_⟩
  · rw [hs]; rfl
  · rw [hs]
    simp [countP_replicate_join, List.countP_cons, isStatusReq]
  · rw [hs]
    simp [countP_replicate_join, List.countP_cons, isDetailReq]

/-- Witness for C2: a status endpoint permanently answering "queued" runs the
budget down and times out with the diagnosis and the 120-check trace. -/
theorem poll_timeout_budget_witness :
    pollJobStatus (fun _ => .ok ⟨"queued", none⟩) (.ok ⟨none, none, none, none⟩) "job_w" 120 0 =
      (.error (.client (.pollTimeout "job_w" ("https://clipsense.app/results/" ++ "job_w"))),
       (List.replicate 120 [Event.statusReq "job_w", Event.sleep 5000]).flatten) :=
  (poll_timeout_budget (fun _ => .ok ⟨"queued", none⟩) (.ok ⟨none, none, none, none⟩) "job_w"
    (fun _ _ => ⟨⟨"queued", none⟩, rfl, by decide, by decide⟩)).1

/-- Claim C3: a "failed" status observed at poll k stops the loop at once with
the failure carrying the server error message and the job id; the trace shows
k + 1 status checks and no detail fetch, and nothing after the failing check. -/
theorem poll_failed_immediate (statusAt : Nat → Except AxiosErr StatusResp)
    (detail : Except AxiosErr Job) (jobId : String) (k : Nat) (em : Option String)
    (hk : k < 120)
    (hpre : ∀ j, j < k → NonTerminal statusAt j)
    (hfail : statusAt k = .ok ⟨"failed", em⟩) :
    pollJobStatus statusAt detail jobId 120 0 =
      (.error (.client (.analysisFailed (orElseStr em "Unknown error") jobId)),
       (List.replicate k [Event.statusReq jobId, Event.sleep 5000]).flatten
         ++ [Event.statusReq jobId])
    ∧ (pollJobStatus statusAt detail jobId 120 0).2.countP isStatusReq = k + 1
    ∧ (pollJobStatus statusAt detail jobId 120 0).2.countP isDetailReq = 0 := by
  have hs := pollJobStatus_skip statusAt detail jobId k 120 0 (by omega)
    (fun j hj => by simpa using hpre j hj)
  have e1 : 120 - k = (119 - k) + 1 := by omega
  have hstep : pollJobStatus statusAt detail jobId (120 - k) (0 + k) =
      (.error (.client (.analysisFailed (orElseStr em "Unknown error") jobId)),
       [Event.statusReq jobId]) := by
    rw [e1, Nat.zero_add]
    simp only [pollJobStatus, hfail]
    rfl
  rw [hstep] at hs
  refine ⟨by rw [hs], ?_, ?_⟩
  · rw [hs]
    simp [List.countP_append, countP_replicate_join, List.countP_cons, isStatusReq]
  · rw [hs]
    simp [List.countP_append, countP_replicate_join, List.countP_cons, isDetailReq]

/-- Witness for C3: a job that reports "failed" with a server message on the
third poll stops after exactly 3 checks, carrying the message and the job id. -/
theorem poll_failed_immediate_witness :
    pollJobStatus
      (fun i => if i < 2 then .ok ⟨"processing", none⟩ else .ok ⟨"failed", some "bad codec"⟩)
      (.ok ⟨none, none, none, none⟩) "job_f" 120 0 =
      (.error (.client (.analysisFailed "bad codec" "job_f")),
       (List.replicate 2 [Event.statusReq "job_f", Event.sleep 5000]).flatten
         ++ [Event.statusReq "job_f"]) :=
  (poll_failed_immediate
    (fun i => if i < 2 then .ok ⟨"processing", none⟩ else .ok ⟨"failed", some "bad codec"⟩)
    (.ok ⟨none, none, none, none⟩) "job_f" 2 (some "bad codec") (by decide)
    (fun j hj => ⟨⟨"processing", none⟩, by simp [show j < 2 from hj], by decide, by decide⟩)
    rfl).1

/-- Claim C5: a transient network failure (connection refused, host not found
or timed out) at any poll stops the loop at once with the lost-connection
diagnosis carrying the job id and the status-check URL; no further status
check follows the failing one. -/
theorem poll_network_error (statusAt : Nat → Except AxiosErr StatusResp)
    (detail : Except AxiosErr Job) (jobId : String) (k : Nat) (c m : String)
    (hk : k < 120)
    (hpre : ∀ j, j < k → NonTerminal statusAt j)
    (herr : statusAt k = .error (.code c m))
    (hc : c = "ECONNREFUSED" ∨ c = "ENOTFOUND" ∨ c = "ETIMEDOUT") :
    pollJobStatus statusAt detail jobId 120 0 =
      (.error (.client (.lostConnection jobId ("https://clipsense.app/results/" ++ jobId) m)),
       (List.replicate k [Event.statusReq jobId, Event.sleep 5000]).flatten
         ++ [Event.statusReq jobId])
    ∧ (pollJobStatus statusAt detail jobId 120 0).2.countP isStatusReq = k + 1
    ∧ (pollJobStatus statusAt detail jobId 120 0).2.countP isDetailReq = 0 := by
  have hs := pollJobStatus_skip statusAt detail jobId k 120 0 (by omega)
    (fun j hj => by simpa using hpre j hj)
  have e1 : 120 - k = (119 - k) + 1 := by omega
  have hstep : pollJobStatus statusAt detail jobId (120 - k) (0 + k) =
      (.error (.client (.lostConnection jobId (resultsUrl jobId) m)),
       [Event.statusReq jobId]) := by
    rw [e1, Nat.zero_add]
    simp only [pollJobStatus, herr, pollCatch, if_pos hc]
  rw [hstep] at hs
  refine ⟨by rw [hs]; rfl, ?_, ?_⟩
  · rw [hs]
    simp [List.countP_append, countP_replicate_join, List.countP_cons, isStatusReq]
  · rw [hs]
    simp [List.countP_append, countP_replicate_join, List.countP_cons, isDetailReq]

/-- Witness for C5: connection refused on the second poll surfaces the
lost-connection diagnosis with the job id and URL after exactly 2 checks. -/
theorem poll_network_error_witness :
    pollJobStatus
      (fun i => if i = 0 then .ok ⟨"queued", none⟩ else .error (.code "ECONNREFUSED" "connect ECONNREFUSED"))
      (.ok ⟨none, none, none, none⟩) "job_n" 120 0 =
      (.error (.client (.lostConnection "job_n" ("https://clipsense.app/results/" ++ "job_n")
        "connect ECONNREFUSED")),
       (List.replicate 1 [Event.statusReq "job_n", Event.sleep 5000]).flatten
         ++ [Event.statusReq "job_n"]) :=
  (poll_network_error
    (fun i => if i = 0 then .ok ⟨"queued", none⟩ else .error (.code "ECONNREFUSED" "connect ECONNREFUSED"))
    (.ok ⟨none, none, none, none⟩) "job_n" 1 "ECONNREFUSED" "connect ECONNREFUSED" (by decide)
    (fun j hj => ⟨⟨"queued", none⟩, by simp [show j = 0 by omega], by decide, by decide⟩)
    rfl (Or.inl rfl)).1

set_option maxRecDepth 8000 in
/-- Claim C4: when the status sequence first turns "completed" at poll k, the
loop returns the detail payload with exactly one detail fetch, issued directly
after the final status check and never before (the trace ends in the completed
check followed by the single detail request); and in the full mock scenario —
presign accepted, PUT accepted, job id job_1, "completed" on the third status
poll — the pipeline performs exactly 3 status calls, 1 detail call, 1 presign
call and 1 PUT, and returns a report containing the mock response text. -/
theorem poll_completed_detail :
    (∀ (statusAt : Nat → Except AxiosErr StatusResp) (jobId : String) (k : Nat)
        (em : Option String) (job : Job), k < 120 →
      (∀ j, j < k → NonTerminal statusAt j) →
      statusAt k = .ok ⟨"completed", em⟩ →
      pollJobStatus statusAt (.ok job) jobId 120 0 =
        (.ok job,
         (List.replicate k [Event.statusReq jobId, Event.sleep 5000]).flatten
           ++ [Event.statusReq jobId, Event.detailReq jobId])
      ∧ (pollJobStatus statusAt (.ok job) jobId 120 0).2.countP isDetailReq = 1
      ∧ (pollJobStatus statusAt (.ok job) jobId 120 0).2.countP isStatusReq = k + 1)
    ∧ (mockRun.2.countP isStatusReq = 3 ∧ mockRun.2.countP isDetailReq = 1
      ∧ mockRun.2.countP isPresignReq = 1 ∧ mockRun.2.countP isPutReq = 1
      ∧ ∃ text, mockRun.1 = .ok ⟨"job_1", text⟩
          ∧ 0 < occurrences text "The button handler throws a null pointer exception") := by
  constructor
  · intro statusAt jobId k em job hk hpre hcomp
    have hs := pollJobStatus_skip statusAt (.ok job) jobId k 120 0 (by omega)
      (fun j hj => by simpa using hpre j hj)
    have e1 : 120 - k = (119 - k) + 1 := by omega
    have hstep : pollJobStatus statusAt (.ok job) jobId (120 - k) (0 + k) =
        (.ok job, [Event.statusReq jobId, Event.detailReq jobId]) := by
      rw [e1, Nat.zero_add]
      simp only [pollJobStatus, hcomp]
      rfl
    rw [hstep] at hs
    refine ⟨by rw [hs], ?_, ?_⟩
    · rw [hs]
      simp [List.countP_append, countP_replicate_join, List.countP_cons, isDetailReq]
    · rw [hs]
      simp [List.countP_append, countP_replicate_join, List.countP_cons, isStatusReq]
  · refine ⟨by decide, by decide, by decide, by decide,
      ⟨renderReport "The button handler throws a null pointer exception" mockJob, rfl, by decide⟩⟩

/-- Witness for C4: the mock status sequence queued, processing, completed
yields exactly one detail fetch after the third check. -/
theorem poll_completed_detail_witness :
    pollJobStatus mockNet.statusAt (.ok mockJob) "job_1" 120 0 =
      (.ok mockJob,
       (List.replicate 2 [Event.statusReq "job_1", Event.sleep 5000]).flatten
         ++ [Event.statusReq "job_1", Event.detailReq "job_1"]) :=
  (poll_completed_detail.1 mockNet.statusAt "job_1" 2 none mockJob (by decide)
    (fun j hj => by
      match j, hj with
      | 0, _ => exact ⟨⟨"queued", none⟩, rfl, by decide, by decide⟩
      | 1, _ => exact ⟨⟨"processing", none⟩, rfl, by decide, by decide⟩)
    rfl).1

/-- Counterexample to claim C6 as stated: a job whose `result.response` is
present but empty does not render the template — the formatter fails with the
no-result error, because `!result?.response` tests JavaScript falsiness, not
absence. -/
theorem formatter_empty_response_cex :
    emptyRespJob.result = some ⟨some ""⟩ ∧
    formatAnalysis emptyRespJob = .error .noResult :=
  ⟨rfl, rfl⟩

/-- Claim C6 as amended: the formatter fails hard exactly when
`job.result.response` is absent or the empty string; otherwise it renders the
fixed template, and on the round-trip job with response "X", 7 frames, 100
tokens and cost 0.0123 the rendered text contains "X", "7", "100" and
"$0.0123" exactly once each. -/
theorem formatter_contract :
    (∀ job : Job, formatAnalysis job = .error .noResult ↔
      (job.result = none ∨
        ∃ r, job.result = some r ∧ (r.response = none ∨ r.response = some "")))
    ∧ (∀ (job : Job) (r : JobResult) (s : String), job.result = some r →
        r.response = some s → s ≠ "" → formatAnalysis job = .ok (renderReport s job))
    ∧ (∃ text, formatAnalysis sampleJob = .ok text ∧
        occurrences text "X" = 1 ∧ occurrences text "7" = 1 ∧
        occurrences text "100" = 1 ∧ occurrences text "$0.0123" = 1) := by
  refine ⟨?_, ?_, ?_⟩
  · intro job
    rcases job with ⟨res, fr, tok, cost⟩
    rcases res with _ | r
    · simp [formatAnalysis]
    · rcases r with ⟨resp⟩
      rcases resp with _ | s
      · simp [formatAnalysis]
      · by_cases hs : s = ""
        · subst hs
          simp [formatAnalysis]
        · simp [formatAnalysis, hs]
  · intro job r s hr hresp hs
    simp [formatAnalysis, hr, hresp, hs]
  · exact ⟨renderReport "X" sampleJob, rfl, by decide, by decide, by decide, by decide⟩

/-- Witness for C6: the round-trip job renders successfully. -/
theorem formatter_contract_witness :
    formatAnalysis sampleJob = .ok (renderReport "X" sampleJob) :=
  formatter_contract.2.1 sampleJob ⟨some "X"⟩ "X" rfl rfl (by decide)

/-- Claim C9: a frame count of zero renders exactly as an absent frame count —
the report shows "N/A", never "0", for the frames line — while zero tokens
render as 0 and zero cost as $0.0000. -/
theorem zero_frames_na :
    (∀ job : Job, job.frames_extracted = some 0 →
      formatAnalysis job = formatAnalysis { job with frames_extracted := none })
    ∧ (∃ text, formatAnalysis zeroFramesJob = .ok text ∧
        occurrences text "- Frames analyzed: N/A" = 1 ∧
        occurrences text "- Frames analyzed: 0" = 0 ∧
        occurrences text "- Tokens used: 0" = 1 ∧
        occurrences text "- Cost: $0.0000" = 1) := by
  constructor
  · intro job h
    rcases job with ⟨res, fr, tok, cost⟩
    obtain rfl : fr = some 0 := h
    rfl
  · exact ⟨renderReport "R" zeroFramesJob, rfl, by decide, by decide, by decide, by decide⟩

/-- Witness for C9: the concrete all-zero job renders the same as its
absent-frames variant. -/
theorem zero_frames_na_witness :
    formatAnalysis zeroFramesJob =
      formatAnalysis { zeroFramesJob with frames_extracted := none } :=
  zero_frames_na.1 zeroFramesJob rfl

end ClipSense
